import Mathlib

/-!
Shallow embedding of the profile-manager core of `modrith_ctk.py`
(`Mod`, `GameProfile`, `ModrithManager`): JSON documents are modelled by an
inductive AST (the `json.dumps`/`json.loads` text layer is a faithful inverse
pair on these values and is not re-modelled at string level), Python dicts by
insertion-ordered association lists, and filesystem / HTTP effects by explicit
state or operation traces.
-/

namespace Modrith

/-- JSON value AST. Objects keep key insertion order, as Python dicts do. -/
inductive Json where
  | null : Json
  | bool (b : Bool) : Json
  | num (n : Int) : Json
  | str (s : String) : Json
  | arr (elems : List Json) : Json
  | obj (fields : List (String × Json)) : Json

/-- Lookup in an insertion-ordered association list (Python `d[k]` access). -/
def alookup {α : Type} (k : String) : List (String × α) → Option α
  | [] => none
  | (k', v) :: rest => if k' = k then some v else alookup k rest

/-- Python dict assignment `d[k] = v`: an existing key keeps its position and
gets the new value; a fresh key is appended at the end. -/
def dictInsert {α : Type} (k : String) (v : α) : List (String × α) → List (String × α)
  | [] => [(k, v)]
  | (k', v') :: rest => if k' = k then (k, v) :: rest else (k', v') :: dictInsert k v rest

/-- The `Mod` dataclass of `modrith_ctk.py` (lines 13-22), fields in
declaration order. `dependencies` is a dict modelled as an ordered
association list. -/
structure Mod where
  id : String
  name : String
  version : String
  files : List String
  dependencies : List (String × String)
  checksum : String
  source_url : String
  enabled : Bool
deriving DecidableEq, Repr

/-- The `GameProfile` dataclass of `modrith_ctk.py` (lines 24-32), fields in
declaration order. `mods` is a dict of mod-id to `Mod`. -/
structure GameProfile where
  name : String
  game_id : String
  mods : List (String × Mod)
  load_order : List String
  config : List (String × String)
  resource_packs : List String
  data_packs : List String
deriving DecidableEq, Repr

/-- Serialization of one `Mod` as `vars(v)` produces it inside
`ModrithManager._save_profile` (line 85): an object with the dataclass
fields in declaration order. -/
def modToJson (m : Mod) : Json :=
  .obj [("id", .str m.id),
        ("name", .str m.name),
        ("version", .str m.version),
        ("files", .arr (m.files.map .str)),
        ("dependencies", .obj (m.dependencies.map fun kv => (kv.1, .str kv.2))),
        ("checksum", .str m.checksum),
        ("source_url", .str m.source_url),
        ("enabled", .bool m.enabled)]

/-- The document `ModrithManager._save_profile` (lines 82-90) passes to
`json.dumps`: keys in the order of the dict literal in the source. -/
def profileToJson (p : GameProfile) : Json :=
  .obj [("name", .str p.name),
        ("game_id", .str p.game_id),
        ("mods", .obj (p.mods.map fun kv => (kv.1, modToJson kv.2))),
        ("load_order", .arr (p.load_order.map .str)),
        ("resource_packs", .arr (p.resource_packs.map .str)),
        ("data_packs", .arr (p.data_packs.map .str)),
        ("config", .obj (p.config.map fun kv => (kv.1, .str kv.2)))]

/-- Exceptions that the load path of `ModrithManager._load_profiles` can
raise: `json.loads` failure, a missing dict key, and a call-shape mismatch
(`Mod(**v)` with wrong keys, or a field whose JSON shape differs from the
dataclass field's type; Python's dynamic typing would surface the latter
later, the embedding types the record fields up front). -/
inductive PyError where
  | jsonDecodeError : PyError
  | keyError (k : String) : PyError
  | typeError : PyError
deriving DecidableEq, Repr

/-- Python subscript `data[k]`: `TypeError` on a non-dict, `KeyError` on a
missing key. -/
def getItem (data : Json) (k : String) : Except PyError Json :=
  match data with
  | .obj fields =>
    match alookup k fields with
    | some v => .ok v
    | none => .error (.keyError k)
  | _ => .error .typeError

def expectStr : Json → Except PyError String
  | .str s => .ok s
  | _ => .error .typeError

def expectObj : Json → Except PyError (List (String × Json))
  | .obj fields => .ok fields
  | _ => .error .typeError

/-- A JSON array of strings, as `load_order` / `resource_packs` /
`data_packs` hold in a profile document. -/
def strListFromJson : List Json → Option (List String)
  | [] => some []
  | .str s :: rest => (strListFromJson rest).map (s :: ·)
  | _ :: _ => none

def expectStrList : Json → Except PyError (List String)
  | .arr elems =>
    match strListFromJson elems with
    | some l => .ok l
    | none => .error .typeError
  | _ => .error .typeError

/-- A JSON object of string values, as `dependencies` and `config` hold. -/
def strPairsFromJson : List (String × Json) → Option (List (String × String))
  | [] => some []
  | (k, .str s) :: rest => (strPairsFromJson rest).map ((k, s) :: ·)
  | _ :: _ => none

def expectStrPairs : Json → Except PyError (List (String × String))
  | .obj fields =>
    match strPairsFromJson fields with
    | some l => .ok l
    | none => .error .typeError
  | _ => .error .typeError

/-- The field names `Mod(**v)` accepts. -/
def modFieldNames : List String :=
  ["id", "name", "version", "files", "dependencies", "checksum", "source_url", "enabled"]

/-- The constructor call `Mod(**v)` from `_load_profiles` (line 68): the six
defaultless fields must be present, `source_url` defaults to the empty string
and `enabled` to true, and any key outside the dataclass fields is a
`TypeError`. -/
def modFromJson (j : Json) : Option Mod :=
  match j with
  | .obj fields =>
    if fields.all (fun kv => modFieldNames.contains kv.1) then
      match alookup "id" fields, alookup "name" fields, alookup "version" fields,
            alookup "files" fields, alookup "dependencies" fields,
            alookup "checksum" fields with
      | some (.str i), some (.str n), some (.str ver), some (.arr fl),
        some (.obj dep), some (.str ch) =>
        match strListFromJson fl, strPairsFromJson dep with
        | some files, some deps =>
          match (match alookup "source_url" fields with
                 | none => some ""
                 | some (.str u) => some u
                 | some _ => none),
                (match alookup "enabled" fields with
                 | none => some true
                 | some (.bool b) => some b
                 | some _ => none) with
          | some su, some en => some ⟨i, n, ver, files, deps, ch, su, en⟩
          | _, _ => none
        | _, _ => none
      | _, _, _, _, _, _ => none
    else none
  | _ => none

/-- The dict comprehension in `_load_profiles` (line 68):
every value of `data` at key `mods` becomes a `Mod` via `Mod(**v)`. -/
def modsFromJson : List (String × Json) → Except PyError (List (String × Mod))
  | [] => .ok []
  | (k, v) :: rest =>
    match modFromJson v with
    | none => .error .typeError
    | some m => (modsFromJson rest).map ((k, m) :: ·)

/-- Exception propagation: evaluate the first computation and feed its value
to the rest, or let the raised exception escape. -/
def bindE {α β : Type} (x : Except PyError α) (f : α → Except PyError β) :
    Except PyError β :=
  match x with
  | .error e => .error e
  | .ok a => f a

/-- The per-document body of `ModrithManager._load_profiles` (lines 67-76):
parseable text already turned into a `Json` value, fields looked up in
source evaluation order and assembled into a `GameProfile` with no
validation of `load_order` against the keys of `mods`. -/
def profileFromData (data : Json) : Except PyError GameProfile :=
  bindE (getItem data "mods") fun modsJ =>
  bindE (expectObj modsJ) fun modsFields =>
  bindE (modsFromJson modsFields) fun mods =>
  bindE (getItem data "name") fun nameJ =>
  bindE (expectStr nameJ) fun pname =>
  bindE (getItem data "game_id") fun gidJ =>
  bindE (expectStr gidJ) fun gid =>
  bindE (getItem data "load_order") fun loadOrderJ =>
  bindE (expectStrList loadOrderJ) fun loadOrder =>
  bindE (getItem data "resource_packs") fun rpJ =>
  bindE (expectStrList rpJ) fun rp =>
  bindE (getItem data "data_packs") fun dpJ =>
  bindE (expectStrList dpJ) fun dp =>
  bindE (getItem data "config") fun cfgJ =>
  bindE (expectStrPairs cfgJ) fun cfg =>
  .ok { name := pname, game_id := gid, mods := mods, load_order := loadOrder,
        config := cfg, resource_packs := rp, data_packs := dp }

/-- Contents of one `profile.json` file as `json.loads` sees it: either text
that fails to parse (`JSONDecodeError`) or a parsed JSON value. -/
inductive DocFile where
  | invalidJson : DocFile
  | parsed (j : Json) : DocFile

/-- Reading one existing `profile.json`: `json.loads` then the constructor
calls of `_load_profiles`. -/
def loadDoc : DocFile → Except PyError GameProfile
  | .invalidJson => .error .jsonDecodeError
  | .parsed j => profileFromData j

/-- The loop of `ModrithManager._load_profiles` (lines 63-77) over the
entries of the profiles directory, in enumeration order. Each entry is a
folder name paired with its `profile.json` (`none` when `pf.exists()` is
false, in which case the folder is skipped). A loaded profile is stored
under `gp.name`, the name inside the document; any exception propagates and
aborts the whole scan. -/
def load_profiles (store : List (String × GameProfile)) :
    List (String × Option DocFile) → Except PyError (List (String × GameProfile))
  | [] => .ok store
  | (_, none) :: rest => load_profiles store rest
  | (_, some doc) :: rest =>
    match loadDoc doc with
    | .error e => .error e
    | .ok gp => load_profiles (dictInsert gp.name gp store) rest

/-- Filesystem operations, for stating what `_save_profile` does as a trace.
Paths are segment lists relative to the manager's base directory. -/
inductive FsOp where
  | mkdirCreate (path : List String) : FsOp
  | writeText (path : List String) (doc : Json) : FsOp
  | rename (src dst : List String) : FsOp

/-- The operation trace of `ModrithManager._save_profile` (lines 79-90):
`d.mkdir(parents=True, exist_ok=True)` followed by a single
`(d/"profile.json").write_text(json.dumps(...))`, the written text shown as
its JSON value. -/
def save_profile_ops (p : GameProfile) : List FsOp :=
  [.mkdirCreate ["profiles", p.name],
   .writeText ["profiles", p.name, "profile.json"] (profileToJson p)]

def countRenames : List FsOp → Nat
  | [] => 0
  | .rename _ _ :: rest => countRenames rest + 1
  | _ :: rest => countRenames rest

/-- An HTTP response as `browse_mods` observes it: status code, reason
phrase, raw body text, and the value `r.json()` parses the body to. -/
structure HttpResponse where
  status : Nat
  reason : String
  bodyText : String
  bodyJson : Json

/-- The error `aiohttp`'s `raise_for_status` raises: it carries the response
status and, as its message, the reason phrase (the body is not read). -/
structure ClientResponseError where
  status : Nat
  message : String
deriving DecidableEq, Repr

/-- `r.raise_for_status()` as called in `browse_mods` (line 114): raises
`ClientResponseError(status=r.status, message=r.reason)` when the status is
400 or above, otherwise does nothing. -/
def raise_for_status (r : HttpResponse) : Except ClientResponseError Unit :=
  if 400 ≤ r.status then .error ⟨r.status, r.reason⟩ else .ok ()

/-- The request URL built by `ModrithManager.browse_mods` (line 111): the
query is interpolated verbatim into the f-string, with no encoding. -/
def browse_mods_url (query : String) : String :=
  "https://api.modrinth.com/v2/search?query=" ++ query ++ "&limit=10"

/-- The response handling of `ModrithManager.browse_mods` (lines 113-115):
`raise_for_status`, then return the parsed JSON body. -/
def browse_mods (r : HttpResponse) : Except ClientResponseError Json :=
  match raise_for_status r with
  | .error e => .error e
  | .ok _ => .ok r.bodyJson

/-- A directory tree, flattened: relative file path to contents. -/
def DirTree : Type := List (String × String)

/-- The manager-owned parts of the on-disk state for backup and restore:
profile directories under `profiles/` keyed by folder name, and zip archives
under `backups/` keyed by base name (the archive `backups/<k>.zip` holds the
tree stored at key `k`). -/
structure ManagerFs where
  profiles : List (String × DirTree)
  backups : List (String × DirTree)

inductive OsError where
  | fileNotFound : OsError
deriving DecidableEq, Repr

/-- `ModrithManager.backup_profile` (lines 118-122).
`shutil.make_archive(base, 'zip', root_dir)` is external library code,
modelled from its documented behaviour: it enters `root_dir` and archives
its tree into `base + ".zip"`, raising `FileNotFoundError` when `root_dir`
does not exist. The method computes `out = backups/<name>.zip`, strips the
suffix for `base`, and has no `return` statement, so its Python value is
`None`: the result pairs the new state with that returned value. -/
def backup_profile (fs : ManagerFs) (profile_name : String) :
    Except OsError (ManagerFs × Option String) :=
  match alookup profile_name fs.profiles with
  | none => .error .fileNotFound
  | some tree =>
    .ok ({ fs with backups := dictInsert profile_name tree fs.backups }, none)

/-- An archive file on disk: either not a zip at all, or a zip holding a
list of entries (relative path, contents). -/
inductive Archive where
  | notZip : Archive
  | zip (entries : List (String × String)) : Archive

/-- A `Path` argument to `restore_profile`: its `.stem` (base name without
the final suffix) and the archive stored at it. -/
structure ZipPath where
  stem : String
  archive : Archive

/-- The error `shutil.unpack_archive` raises on an unreadable or
unrecognised archive. -/
inductive ShutilError where
  | readError : ShutilError
deriving DecidableEq, Repr

/-- Extraction into a possibly existing directory: each entry is written in
order, overwriting a file of the same name and keeping unrelated files. -/
def extractInto (old : DirTree) (entries : List (String × String)) : DirTree :=
  entries.foldl (fun acc e => dictInsert e.1 e.2 acc) old

/-- `ModrithManager.restore_profile` (lines 124-127):
`shutil.unpack_archive(zip_path, profiles/<stem>)` — external library code
modelled from its documented behaviour: `ReadError` when the file is not a
valid zip, otherwise the entries are extracted into the target directory.
No check of the extracted contents is made. -/
def restore_profile (fs : ManagerFs) (zp : ZipPath) : Except ShutilError ManagerFs :=
  match zp.archive with
  | .notZip => .error .readError
  | .zip entries =>
    let old := (alookup zp.stem fs.profiles).getD []
    .ok { fs with profiles := dictInsert zp.stem (extractInto old entries) fs.profiles }

/-- Errors of the Profile Store operations described in spec section 4.2. -/
inductive StoreError where
  | notFound : StoreError
  | duplicateModId : StoreError
deriving DecidableEq, Repr

/-- Modelled from the spec: `ModrithManager` in the source defines no
`addMod` operation (sections 4.2 and 8 of the spec describe it; no method of
the class implements it), so it is modelled from the spec's words:
`addMod(profileName, mod)` fails with `DuplicateModId` if the mod's id is
already present in that profile, and otherwise appends the id to the load
order and the mod to the mod mapping. The store is returned unchanged on
failure, updated on success, paired with the error if any. -/
def addModStore (store : List (String × GameProfile)) (profileName : String) (m : Mod) :
    List (String × GameProfile) × Option StoreError :=
  match alookup profileName store with
  | none => (store, some .notFound)
  | some p =>
    match alookup m.id p.mods with
    | some _ => (store, some .duplicateModId)
    | none =>
      (dictInsert profileName
        { p with mods := p.mods ++ [(m.id, m)], load_order := p.load_order ++ [m.id] }
        store, none)

/-- A concrete mod, used to instantiate the theorems below. -/
def sodiumMod : Mod :=
  { id := "sodium", name := "Sodium", version := "0.5", files := ["sodium.jar"],
    dependencies := [("fabric", "0.15")], checksum := "abc123",
    source_url := "https://example.com/sodium", enabled := true }

/-- A concrete well-formed profile: its load order is exactly the keys of
its mod mapping. -/
def survivalProfile : GameProfile :=
  { name := "Survival", game_id := "1.20.1", mods := [("sodium", sodiumMod)],
    load_order := ["sodium"], config := [("difficulty", "hard")],
    resource_packs := ["packA"], data_packs := ["packB"] }

/-- A concrete mod for the corrupt-document scenarios. -/
def modA : Mod :=
  { id := "a", name := "Alpha", version := "1.0", files := ["a.jar"],
    dependencies := [("lib", "1.2")], checksum := "deadbeef",
    source_url := "", enabled := true }

/-- A profile document whose `load_order` lists an id, "b", that is absent
from its `mods` mapping: the corrupt document of spec section 8. -/
def mismatchedDoc : Json :=
  .obj [("name", .str "Broken"), ("game_id", .str "1.20.1"),
        ("mods", .obj [("a", modToJson modA)]),
        ("load_order", .arr [.str "a", .str "b"]),
        ("resource_packs", .arr []), ("data_packs", .arr []), ("config", .obj [])]

/-- The profile the loader builds out of `mismatchedDoc`. -/
def mismatchedProfile : GameProfile :=
  { name := "Broken", game_id := "1.20.1", mods := [("a", modA)],
    load_order := ["a", "b"], config := [], resource_packs := [], data_packs := [] }

/-- A concrete one-profile store. -/
def wStore : List (String × GameProfile) := [("Survival", survivalProfile)]

/-- The profile `survivalProfile` after a successful `addMod` of `modA`. -/
def survivalAfterAdd : GameProfile :=
  { survivalProfile with
    mods := survivalProfile.mods ++ [("a", modA)],
    load_order := survivalProfile.load_order ++ ["a"] }

/-- A concrete mocked 503 response from the mod-index endpoint. -/
def resp503 : HttpResponse :=
  { status := 503, reason := "Service Unavailable",
    bodyText := "upstream exploded", bodyJson := .null }

/-- A concrete on-disk state holding one profile directory. -/
def wFs : ManagerFs :=
  { profiles := [("Survival", [("profile.json", "doc")])], backups := [] }

/-- The state `wFs` after backing up profile Survival. -/
def wFsBacked : ManagerFs :=
  { profiles := [("Survival", [("profile.json", "doc")])],
    backups := [("Survival", [("profile.json", "doc")])] }

/-- A valid zip archive that contains no profile document at all. -/
def noDocZip : ZipPath := { stem := "Alpha", archive := .zip [("readme.txt", "hello")] }

/-- A path whose file is not a zip archive. -/
def badZip : ZipPath := { stem := "Bad", archive := .notZip }

/-- An on-disk state with an existing directory at the restore target. -/
def restoreFs : ManagerFs :=
  { profiles := [("Alpha", [("old.cfg", "x"), ("readme.txt", "stale")])], backups := [] }

/-- First of two profiles carrying the same internal name "Dup". -/
def gpDup1 : GameProfile :=
  { name := "Dup", game_id := "1.20", mods := [], load_order := [],
    config := [], resource_packs := [], data_packs := [] }

/-- Second profile with internal name "Dup", distinguishable from the
first by its game id. -/
def gpDup2 : GameProfile :=
  { name := "Dup", game_id := "1.21", mods := [], load_order := [],
    config := [], resource_packs := [], data_packs := [] }

theorem alookup_dictInsert_self {α : Type} (k : String) (v : α) (l : List (String × α)) :
    alookup k (dictInsert k v l) = some v := by
  induction l with
  | nil => simp [dictInsert, alookup]
  | cons hd tl ih =>
    obtain ⟨a, b⟩ := hd
    by_cases hk : a = k
    · simp [dictInsert, hk, alookup]
    · simp [dictInsert, hk, alookup, ih]

theorem alookup_dictInsert_ne {α : Type} (k k' : String) (v : α) (l : List (String × α))
    (h : k' ≠ k) : alookup k' (dictInsert k v l) = alookup k' l := by
  induction l with
  | nil => simp [dictInsert, alookup, Ne.symm h]
  | cons hd tl ih =>
    obtain ⟨a, b⟩ := hd
    by_cases hk : a = k
    · subst hk
      simp [dictInsert, alookup, Ne.symm h]
    · simp [dictInsert, hk, alookup, ih]

theorem dictInsert_dictInsert_same {α : Type} (k : String) (v1 v2 : α)
    (l : List (String × α)) :
    dictInsert k v2 (dictInsert k v1 l) = dictInsert k v2 l := by
  induction l with
  | nil => simp [dictInsert]
  | cons hd tl ih =>
    obtain ⟨a, b⟩ := hd
    by_cases hk : a = k
    · simp [dictInsert, hk]
    · simp [dictInsert, hk, ih]

theorem strListFromJson_map (xs : List String) :
    strListFromJson (xs.map Json.str) = some xs := by
  induction xs with
  | nil => rfl
  | cons x xs ih => simp [strListFromJson, ih]

theorem strPairsFromJson_map (ps : List (String × String)) :
    strPairsFromJson (ps.map fun kv => (kv.1, Json.str kv.2)) = some ps := by
  induction ps with
  | nil => rfl
  | cons p ps ih => simp [strPairsFromJson, ih]

theorem modFromJson_modToJson (m : Mod) : modFromJson (modToJson m) = some m := by
  simp [modToJson, modFromJson, modFieldNames, alookup,
        strListFromJson_map, strPairsFromJson_map]

theorem modsFromJson_map (ps : List (String × Mod)) :
    modsFromJson (ps.map fun kv => (kv.1, modToJson kv.2)) = .ok ps := by
  induction ps with
  | nil => rfl
  | cons p ps ih => simp [modsFromJson, modFromJson_modToJson, ih, Except.map]

/-- C1: saving a profile whose load order is a permutation of its mod
mapping's keys, then loading the document back as `_load_profiles` does,
yields a profile equal to the original in every field. -/
theorem save_load_roundtrip (p : GameProfile)
    (_h : p.load_order.Perm (p.mods.map Prod.fst)) :
    profileFromData (profileToJson p) = Except.ok p := by
  simp [profileFromData, profileToJson, getItem, alookup, expectObj, expectStr,
        expectStrList, expectStrPairs, strListFromJson_map, strPairsFromJson_map,
        modsFromJson_map, bindE]

/-- Witness for C1 at a concrete profile. -/
theorem save_load_roundtrip_witness :
    survivalProfile.load_order.Perm (survivalProfile.mods.map Prod.fst) ∧
    profileFromData (profileToJson survivalProfile) = Except.ok survivalProfile :=
  ⟨by decide, save_load_roundtrip survivalProfile (by decide)⟩

/-- C2: evaluation of the save path at a concrete profile. The trace of
`_save_profile` is a `mkdir` followed by one `write_text` directly to the
final `profiles/<name>/profile.json` path, and contains no rename: the
claimed write-to-temporary-then-rename mechanism is absent, so an
interrupted save can leave a partially written document at the visible
path. -/
theorem save_profile_writes_directly_no_rename :
    save_profile_ops survivalProfile =
      [FsOp.mkdirCreate ["profiles", "Survival"],
       FsOp.writeText ["profiles", "Survival", "profile.json"]
         (profileToJson survivalProfile)] ∧
    countRenames (save_profile_ops survivalProfile) = 0 :=
  ⟨rfl, rfl⟩

/-- C3: evaluation of the load path at the corrupt document of spec
section 8 (`load_order` is `["a","b"]` but `mods` holds only `"a"`). The
code performs no load_order/mods validation and succeeds, returning a
profile whose load order is not a permutation of its mod keys — it does not
fail with any `CorruptData`-like error. -/
theorem load_accepts_mismatched_doc :
    loadDoc (DocFile.parsed mismatchedDoc) = Except.ok mismatchedProfile ∧
    ¬ mismatchedProfile.load_order.Perm (mismatchedProfile.mods.map Prod.fst) :=
  ⟨rfl, by decide⟩

/-- C4: evaluation of the startup scan at a directory whose first
enumerated folder holds an unparseable `profile.json` and whose second
holds a well-formed one. The exception from the corrupt document aborts the
whole scan — the well-formed profile (which loads fine on its own, second
conjunct) never reaches the store, so partial failure is not isolated. -/
theorem load_profiles_aborts_on_corrupt :
    load_profiles [] [("folder1", some DocFile.invalidJson),
                      ("folder2", some (DocFile.parsed (profileToJson survivalProfile)))] =
      Except.error PyError.jsonDecodeError ∧
    loadDoc (DocFile.parsed (profileToJson survivalProfile)) = Except.ok survivalProfile :=
  ⟨rfl, rfl⟩

/-- C5 (spec-modelled `addMod`): on a store holding the named profile, a mod
whose id is already present leaves the store unchanged and reports
`DuplicateModId`; a fresh id reports no error, appends exactly the new id to
the load order and exactly the new mod to the mod mapping, and touches no
other profile. -/
theorem addMod_duplicate_fails_fresh_appends
    (store : List (String × GameProfile)) (pname : String) (p : GameProfile) (m : Mod)
    (hp : alookup pname store = some p) :
    ((alookup m.id p.mods).isSome = true →
      addModStore store pname m = (store, some StoreError.duplicateModId)) ∧
    (alookup m.id p.mods = none →
      addModStore store pname m =
        (dictInsert pname
          { p with mods := p.mods ++ [(m.id, m)],
                   load_order := p.load_order ++ [m.id] } store, none) ∧
      alookup pname (addModStore store pname m).1 =
        some { p with mods := p.mods ++ [(m.id, m)],
                      load_order := p.load_order ++ [m.id] } ∧
      ∀ q, q ≠ pname → alookup q (addModStore store pname m).1 = alookup q store) := by
  constructor
  · intro hdup
    match hm : alookup m.id p.mods with
    | some m0 => simp [addModStore, hp, hm]
    | none => rw [hm] at hdup; simp at hdup
  · intro hfresh
    refine ⟨by simp [addModStore, hp, hfresh], ?_, ?_⟩
    · simp [addModStore, hp, hfresh, alookup_dictInsert_self]
    · intro q hq
      simp [addModStore, hp, hfresh, alookup_dictInsert_ne _ _ _ _ hq]

/-- Witness for C5: on the concrete one-profile store, adding the already
present mod "sodium" fails with `DuplicateModId` and leaves the store as it
was, while adding the fresh mod "a" succeeds and appends it. -/
theorem addMod_duplicate_fails_fresh_appends_witness :
    alookup "Survival" wStore = some survivalProfile ∧
    addModStore wStore "Survival" sodiumMod = (wStore, some StoreError.duplicateModId) ∧
    addModStore wStore "Survival" modA = (dictInsert "Survival" survivalAfterAdd wStore, none) :=
  ⟨rfl,
   (addMod_duplicate_fails_fresh_appends wStore "Survival" survivalProfile sodiumMod rfl).1
     (by decide),
   ((addMod_duplicate_fails_fresh_appends wStore "Survival" survivalProfile modA rfl).2
     rfl).1⟩

/-- C6 counterexample: at the mocked 503 response, `browse_mods` raises an
error carrying the status 503 and the reason phrase as its message, and
that message differs from the response body: the error does not carry the
body the claim promises. -/
theorem browse_mods_error_omits_body :
    browse_mods resp503 = Except.error ⟨503, "Service Unavailable"⟩ ∧
    ClientResponseError.message ⟨503, "Service Unavailable"⟩ ≠ resp503.bodyText :=
  ⟨rfl, by decide⟩

/-- C6 amended: for every response with a non-success (400 or above)
status, `browse_mods` fails with a `ClientResponseError` carrying the
remote status and reason phrase, and returns no result list. -/
theorem browse_mods_raises_on_error_status (r : HttpResponse) (h : 400 ≤ r.status) :
    browse_mods r = Except.error ⟨r.status, r.reason⟩ := by
  simp [browse_mods, raise_for_status, h]

/-- Witness for the amended C6 at the concrete 503 response. -/
theorem browse_mods_raises_on_error_status_witness :
    400 ≤ resp503.status ∧
    browse_mods resp503 = Except.error ⟨resp503.status, resp503.reason⟩ :=
  ⟨by decide, browse_mods_raises_on_error_status resp503 (by decide)⟩

/-- C7 counterexample: backing up the existing profile Survival creates the
archive, but the method body has no return statement, so its value is
`None` — not the archive path `backups/Survival.zip` the claim promises. -/
theorem backup_profile_returns_none :
    backup_profile wFs "Survival" = Except.ok (wFsBacked, none) ∧
    (none : Option String) ≠ some "backups/Survival.zip" :=
  ⟨rfl, by decide⟩

/-- C7 amended: `backup_profile` archives the profile's directory tree
under the deterministic base name `<profileName>` in the backups directory
(the file `backups/<profileName>.zip`) and fails with `FileNotFoundError`
when the profile directory does not exist — but it returns `None`, not the
archive path. -/
theorem backup_profile_archives_or_notfound (fs : ManagerFs) (pname : String) :
    (alookup pname fs.profiles = none →
      backup_profile fs pname = Except.error OsError.fileNotFound) ∧
    (∀ tree, alookup pname fs.profiles = some tree →
      ∃ fs', backup_profile fs pname = Except.ok (fs', none) ∧
        alookup pname fs'.backups = some tree ∧
        fs'.profiles = fs.profiles ∧
        ∀ b, b ≠ pname → alookup b fs'.backups = alookup b fs.backups) := by
  constructor
  · intro h
    simp [backup_profile, h]
  · intro tree h
    have hres : backup_profile fs pname =
        Except.ok ({ fs with backups := dictInsert pname tree fs.backups }, none) := by
      simp [backup_profile, h]
    exact ⟨_, hres, alookup_dictInsert_self pname tree fs.backups, rfl,
      fun b hb => alookup_dictInsert_ne pname b tree fs.backups hb⟩

/-- Witness for the amended C7: one existing and one missing profile
directory. -/
theorem backup_profile_archives_or_notfound_witness :
    alookup "Ghost" wFs.profiles = none ∧
    backup_profile wFs "Ghost" = Except.error OsError.fileNotFound ∧
    alookup "Survival" wFs.profiles = some [("profile.json", "doc")] ∧
    (∃ fs', backup_profile wFs "Survival" = Except.ok (fs', none) ∧
      alookup "Survival" fs'.backups = some [("profile.json", "doc")] ∧
      fs'.profiles = wFs.profiles ∧
      ∀ b, b ≠ "Survival" → alookup b fs'.backups = alookup b wFs.backups) :=
  ⟨rfl, (backup_profile_archives_or_notfound wFs "Ghost").1 rfl, rfl,
   (backup_profile_archives_or_notfound wFs "Survival").2 [("profile.json", "doc")] rfl⟩

/-- C8 counterexample: restoring a valid zip that holds no profile document
(its only entry is `readme.txt`) succeeds, unpacking into
`profiles/Alpha` — it does not fail with any `InvalidArchive`-like error. -/
theorem restore_profile_accepts_missing_doc :
    restore_profile { profiles := [], backups := [] } noDocZip =
      Except.ok { profiles := [("Alpha", [("readme.txt", "hello")])], backups := [] } ∧
    alookup "profile.json" [("readme.txt", "hello")] = none :=
  ⟨rfl, rfl⟩

/-- C8 amended: `restore_profile` fails with `ReadError` when the archive
is not a valid zip; any valid zip — whether or not it contains a profile
document — is unpacked into the directory named after the archive's base
name under the profiles directory, overwriting files of the same name and
leaving every other directory untouched. -/
theorem restore_profile_unpacks_or_readerror (fs : ManagerFs) (zp : ZipPath) :
    (zp.archive = Archive.notZip → restore_profile fs zp = Except.error ShutilError.readError) ∧
    (∀ entries, zp.archive = Archive.zip entries →
      ∃ fs', restore_profile fs zp = Except.ok fs' ∧
        alookup zp.stem fs'.profiles =
          some (extractInto ((alookup zp.stem fs.profiles).getD []) entries) ∧
        (∀ d, d ≠ zp.stem → alookup d fs'.profiles = alookup d fs.profiles) ∧
        fs'.backups = fs.backups) := by
  constructor
  · intro h
    simp [restore_profile, h]
  · intro entries h
    have hres : restore_profile fs zp = Except.ok
        { fs with
          profiles := dictInsert zp.stem
            (extractInto ((alookup zp.stem fs.profiles).getD []) entries) fs.profiles } := by
      simp [restore_profile, h]
    exact ⟨_, hres, alookup_dictInsert_self zp.stem _ fs.profiles,
      fun d hd => alookup_dictInsert_ne zp.stem d _ fs.profiles hd, rfl⟩

/-- Witness for the amended C8: a non-zip file fails with `ReadError`; the
profile-document-free zip unpacks into the existing `Alpha` directory,
overwriting `readme.txt` and keeping `old.cfg`. -/
theorem restore_profile_unpacks_or_readerror_witness :
    restore_profile restoreFs badZip = Except.error ShutilError.readError ∧
    (∃ fs', restore_profile restoreFs noDocZip = Except.ok fs' ∧
      alookup "Alpha" fs'.profiles =
        some (extractInto ((alookup "Alpha" restoreFs.profiles).getD [])
          [("readme.txt", "hello")]) ∧
      (∀ d, d ≠ "Alpha" → alookup d fs'.profiles = alookup d restoreFs.profiles) ∧
      fs'.backups = restoreFs.backups) :=
  ⟨(restore_profile_unpacks_or_readerror restoreFs badZip).1 rfl,
   (restore_profile_unpacks_or_readerror restoreFs noDocZip).2 [("readme.txt", "hello")] rfl⟩

/-- C9: evaluation of the URL builder at a query carrying an ampersand. The
query is spliced verbatim into the f-string with no percent-encoding, so
the query `sodium&limit=999` injects a second `limit` parameter into the
request, and no percent sign ever appears for a query with space, `&`
and `#`. -/
theorem browse_mods_url_no_encoding :
    browse_mods_url "sodium&limit=999" =
      "https://api.modrinth.com/v2/search?query=sodium&limit=999&limit=10" ∧
    (browse_mods_url "a b#c&d").toList.contains '%' = false :=
  ⟨rfl, by decide⟩

/-- C10: the startup scan keys each loaded profile by the `name` field
inside its document, never by the folder it was found in: whatever the two
folder names are, two documents carrying the same internal name load
without error and the later enumerated one silently replaces the earlier
one in the store. -/
theorem load_profiles_keyed_by_internal_name
    (store : List (String × GameProfile)) (d1 d2 : String) (j1 j2 : Json)
    (gp1 gp2 : GameProfile)
    (h1 : profileFromData j1 = Except.ok gp1)
    (h2 : profileFromData j2 = Except.ok gp2)
    (hn : gp1.name = gp2.name) :
    load_profiles store [(d1, some (DocFile.parsed j1)), (d2, some (DocFile.parsed j2))] =
      Except.ok (dictInsert gp2.name gp2 store) ∧
    alookup gp2.name (dictInsert gp2.name gp2 store) = some gp2 := by
  constructor
  · simp [load_profiles, loadDoc, h1, h2, hn, dictInsert_dictInsert_same]
  · exact alookup_dictInsert_self gp2.name gp2 store

/-- Witness for C10: two folders `folderA`, `folderB` whose documents both
carry the internal name "Dup"; only the second document's profile survives
in the store. -/
theorem load_profiles_keyed_by_internal_name_witness :
    profileFromData (profileToJson gpDup1) = Except.ok gpDup1 ∧
    profileFromData (profileToJson gpDup2) = Except.ok gpDup2 ∧
    gpDup1.name = gpDup2.name ∧
    (load_profiles [] [("folderA", some (DocFile.parsed (profileToJson gpDup1))),
                       ("folderB", some (DocFile.parsed (profileToJson gpDup2)))] =
        Except.ok (dictInsert gpDup2.name gpDup2 []) ∧
     alookup gpDup2.name (dictInsert gpDup2.name gpDup2 []) = some gpDup2) :=
  ⟨rfl, rfl, rfl,
   load_profiles_keyed_by_internal_name [] "folderA" "folderB"
     (profileToJson gpDup1) (profileToJson gpDup2) gpDup1 gpDup2 rfl rfl rfl⟩

end Modrith
